import Mathlib

/-!
Verification of the polymarket-rs order core against its specification.

The development shallowly embeds the order-amount scaler, the market-price
walker and the order assembler of `src/orders/builder.rs`,
`src/orders/price.rs` and `src/types/*.rs`.  Rust `Decimal` values
(exact base-10 decimals, per the spec all arithmetic here is exact) are
modelled as rationals `ℚ`; machine integers are modelled as `ℕ` with the
width reductions made explicit.  Helpers that live in repository files not
present under `src/` (`orders/rounding.rs`, `error.rs`, `config.rs`, the
signing module and the time/randomness utilities) are modelled from the
specification and are marked as such in their doc comments.
-/

namespace Polymarket

/-- Order side, from `src/types/enums.rs` (`Side`). -/
inductive Side where
  | Buy : Side
  | Sell : Side
deriving DecidableEq, Repr

/-- Numeric encoding of a side (0 for BUY, 1 for SELL), from
`Side::to_u8` in `src/types/enums.rs`. -/
def Side.to_u8 : Side → ℕ
  | .Buy => 0
  | .Sell => 1

/-- String encoding of a side, from `Side::as_str` in `src/types/enums.rs`. -/
def Side.as_str : Side → String
  | .Buy => "BUY"
  | .Sell => "SELL"

/-- Signature type, from `src/types/enums.rs` (`SignatureType`). -/
inductive SignatureType where
  | Eoa : SignatureType
  | PolyProxy : SignatureType
  | PolyGnosisSafe : SignatureType
deriving DecidableEq, Repr

/-- Numeric encoding of a signature type, from `SignatureType::to_u8`. -/
def SignatureType.to_u8 : SignatureType → ℕ
  | .Eoa => 0
  | .PolyProxy => 1
  | .PolyGnosisSafe => 2

/-- One order-book rung, from `src/types/order.rs` (`PriceLevel`): a price
and the total size available at that price, both exact decimals. -/
structure PriceLevel where
  price : ℚ
  size : ℚ
deriving DecidableEq, Repr

/-- Modelled from the spec: the error enum lives in `src/error.rs`, which is
absent from `src/`.  The variants are the ones constructed by the code under
`src/` (`MissingField`, `InvalidParameter`, `InvalidOrder`, `Config`) plus
the signing failure of spec section 7; each carries the message or field
name the call sites format into it. -/
inductive Error where
  | MissingField : String → Error
  | InvalidParameter : String → Error
  | InvalidOrder : String → Error
  | Config : String → Error
  | Signing : String → Error
deriving DecidableEq, Repr

/-- Truncation toward zero of a rational to an integer, the integer core of
`rust_decimal`'s `ToZero` rounding strategy. -/
def truncTowardZero (x : ℚ) : ℤ :=
  if 0 ≤ x then ⌊x⌋ else ⌈x⌉

/-- Round-half-toward-zero of a rational to an integer: nearest integer,
with exact midpoints resolved toward zero.  Integer core of
`rust_decimal`'s `MidpointTowardZero` strategy. -/
def roundHalfTowardZero (x : ℚ) : ℤ :=
  if 2 * (x - ⌊x⌋) < 1 then ⌊x⌋
  else if 1 < 2 * (x - ⌊x⌋) then ⌊x⌋ + 1
  else if 0 ≤ x then ⌊x⌋ else ⌊x⌋ + 1

/-- `Decimal::round_dp_with_strategy(dp, ToZero)` of the `rust_decimal`
crate: truncate toward zero at `dp` fractional decimal digits. -/
def round_dp_ToZero (dp : ℕ) (q : ℚ) : ℚ :=
  (truncTowardZero (q * 10 ^ dp) : ℚ) / 10 ^ dp

/-- `Decimal::round_dp_with_strategy(dp, MidpointTowardZero)` of the
`rust_decimal` crate: round to `dp` fractional decimal digits, ties toward
zero. -/
def round_dp_MidpointTowardZero (dp : ℕ) (q : ℚ) : ℚ :=
  (roundHalfTowardZero (q * 10 ^ dp) : ℚ) / 10 ^ dp

/-- Modelled from the spec: `RoundConfig` lives in `src/orders/rounding.rs`,
absent from `src/`.  Spec section 3: each supported tick size maps to a
`RoundConfig` of price, size and amount decimal precisions. -/
structure RoundConfig where
  price : ℕ
  size : ℕ
  amount : ℕ
deriving DecidableEq, Repr

/-- Modelled from the spec: `ROUNDING_CONFIG` lives in
`src/orders/rounding.rs`, absent from `src/`.  Spec sections 3 and 4.1: a
fixed, non-extensible map from the exchange's supported tick sizes to
their rounding configurations, mirroring contract-enforced granularities
(price precision matching the tick, two size decimals, and the amount
precision their sum); every other tick size has no entry.  The static map
is embedded as its lookup function, the `ROUNDING_CONFIG.get(&tick_size)`
of `src/orders/builder.rs`. -/
def ROUNDING_CONFIG (tick : ℚ) : Option RoundConfig :=
  if tick = 1 / 10 then some ⟨1, 2, 3⟩
  else if tick = 1 / 100 then some ⟨2, 2, 4⟩
  else if tick = 1 / 1000 then some ⟨3, 2, 5⟩
  else if tick = 1 / 10000 then some ⟨4, 2, 6⟩
  else none

/-- Modelled from the spec: `fix_amount_rounding` lives in
`src/orders/rounding.rs`, absent from `src/`.  Spec section 4.2, correction
step: the raw product of two already-rounded decimals can carry spurious
fractional digits; strip them by re-rounding the result at
`amount_decimals` with the same midpoint-toward-zero rule. -/
def fix_amount_rounding (amt : ℚ) (rc : RoundConfig) : ℚ :=
  round_dp_MidpointTowardZero rc.amount amt

/-- The exact fixed-point integer value of a decimal token amount: the
contract encodes amounts with six token decimals, so this is the decimal
scaled by `10 ^ 6` and truncated toward zero. -/
def token_units (d : ℚ) : ℤ :=
  truncTowardZero (d * 10 ^ 6)

/-- Modelled from the spec: `decimal_to_token_u32` lives in
`src/orders/rounding.rs`, absent from `src/`.  It converts a decimal amount
to the fixed-point integer token quantity (six token decimals); its return
type in `src/orders/builder.rs` is a plain `u32` with no error path, so the
value is reduced into the unsigned 32-bit width (negative inputs, which no
caller produces, are clamped at zero). -/
def decimal_to_token_u32 (d : ℚ) : ℕ :=
  (token_units d).toNat % 2 ^ 32

/-- Limit-order amount scaling, from `OrderBuilder::get_order_amounts` in
`src/orders/builder.rs` (lines 62–92).  The method ignores the builder's
own state, so it is embedded as a free function. -/
def get_order_amounts (side : Side) (size price : ℚ) (rc : RoundConfig) :
    ℕ × ℕ :=
  let raw_price := round_dp_MidpointTowardZero rc.price price
  match side with
  | .Buy =>
      let raw_taker_amt := round_dp_ToZero rc.size size
      let raw_maker_amt := raw_taker_amt * raw_price
      let raw_maker_amt := fix_amount_rounding raw_maker_amt rc
      (decimal_to_token_u32 raw_maker_amt, decimal_to_token_u32 raw_taker_amt)
  | .Sell =>
      let raw_maker_amt := round_dp_ToZero rc.size size
      let raw_taker_amt := raw_maker_amt * raw_price
      let raw_taker_amt := fix_amount_rounding raw_taker_amt rc
      (decimal_to_token_u32 raw_maker_amt, decimal_to_token_u32 raw_taker_amt)

/-- Market-order amount scaling, from
`OrderBuilder::get_market_order_amounts` in `src/orders/builder.rs`
(lines 95–125). -/
def get_market_order_amounts (side : Side) (amount price : ℚ)
    (rc : RoundConfig) : ℕ × ℕ :=
  let raw_price := round_dp_MidpointTowardZero rc.price price
  match side with
  | .Buy =>
      let raw_taker_amt := round_dp_ToZero rc.size amount
      let raw_maker_amt := raw_taker_amt * raw_price
      let raw_maker_amt := fix_amount_rounding raw_maker_amt rc
      (decimal_to_token_u32 raw_maker_amt, decimal_to_token_u32 raw_taker_amt)
  | .Sell =>
      let raw_maker_amt := round_dp_ToZero rc.size amount
      let raw_taker_amt := raw_maker_amt * raw_price
      let raw_taker_amt := fix_amount_rounding raw_taker_amt rc
      (decimal_to_token_u32 raw_maker_amt, decimal_to_token_u32 raw_taker_amt)

/-- The amount-scaling path of order creation: the tick-size table lookup
composed with the limit-order amount scaler, exactly as
`src/orders/builder.rs` lines 161–166 / 204–213 compose them (the spec's
AmountScaler unit). -/
def scaled_order_amounts (tick : ℚ) (side : Side) (size price : ℚ) :
    Except Error (ℕ × ℕ) :=
  match ROUNDING_CONFIG tick with
  | none => .error (.InvalidParameter ("Invalid tick_size: " ++ toString tick))
  | some rc => .ok (get_order_amounts side size price rc)

/-- The ascending defensive copy taken for a BUY in
`calculate_market_price` (`src/orders/price.rs` lines 42–46):
`positions.to_vec()` sorted stably by ascending price.  Rust's stable
`sort_by` is embedded as Mathlib's stable insertion sort. -/
def sort_by_price_ascending (positions : List PriceLevel) : List PriceLevel :=
  List.insertionSort (fun a b => a.price ≤ b.price) positions

/-- The descending defensive copy taken for a SELL in
`calculate_market_price` (`src/orders/price.rs` lines 47–51):
`positions.to_vec()` sorted stably by descending price. -/
def sort_by_price_descending (positions : List PriceLevel) : List PriceLevel :=
  List.insertionSort (fun a b => b.price ≤ a.price) positions

/-- The greedy consumption loop of `calculate_market_price`
(`src/orders/price.rs` lines 54–67): at each level fill
`min remaining size`, accumulate cost, and return the weighted average
the moment `remaining` reaches zero; an exhausted book is an
`InvalidOrder` error carrying the requested share count. -/
def walk_positions (shares_to_match : ℚ) :
    List PriceLevel → ℚ → ℚ → Except Error ℚ
  | [], _, _ =>
      .error (.InvalidOrder
        ("Not enough liquidity to create market order with amount " ++
          toString shares_to_match))
  | p :: rest, remaining, total_cost =>
      let filled := min remaining p.size
      let total_cost := total_cost + filled * p.price
      let remaining := remaining - filled
      if remaining = 0 then .ok (total_cost / shares_to_match)
      else walk_positions shares_to_match rest remaining total_cost

/-- Volume-weighted market price, from `calculate_market_price` in
`src/orders/price.rs` (lines 31–68): sort a defensive copy of the levels
(ascending for a BUY, descending for a SELL) and greedily consume them. -/
def calculate_market_price (positions : List PriceLevel)
    (shares_to_match : ℚ) (side : Side) : Except Error ℚ :=
  let sorted :=
    match side with
    | .Buy => sort_by_price_ascending positions
    | .Sell => sort_by_price_descending positions
  walk_positions shares_to_match sorted shares_to_match 0

/-- Arguments for creating a limit order, from `src/types/order.rs`
(`OrderArgs`). -/
structure OrderArgs where
  token_id : String
  price : ℚ
  size : ℚ
  side : Side

/-- Arguments for creating a market order, from `src/types/order.rs`
(`MarketOrderArgs`). -/
structure MarketOrderArgs where
  token_id : String
  amount : ℚ
  side : Side

/-- Extra optional order arguments, from `src/types/order.rs`
(`ExtraOrderArgs`): fee in basis points, caller-supplied replay nonce and
taker address (zero address = open taker). -/
structure ExtraOrderArgs where
  fee_rate_bps : ℕ
  nonce : ℕ
  taker : String

/-- Options for order creation, from `src/types/order.rs`
(`CreateOrderOptions`): tick size and neg-risk flag, both deliberately
optional so that their absence can be detected as a caller error. -/
structure CreateOrderOptions where
  tick_size : Option ℚ
  neg_risk : Option Bool

/-- The canonical pre-signature order.  The struct itself lives in the
signing module, which is not under `src/`; its fields are taken verbatim
from the construction site in `OrderBuilder::build_signed_order`
(`src/orders/builder.rs` lines 252–265).  Addresses are carried as their
parsed strings and the unsigned integer fields as `ℕ`. -/
structure Order where
  salt : ℕ
  maker : String
  signer : String
  taker : String
  tokenId : ℕ
  makerAmount : ℕ
  takerAmount : ℕ
  expiration : ℕ
  nonce : ℕ
  feeRateBps : ℕ
  side : ℕ
  signatureType : ℕ

/-- Signed order request ready to be posted, from `src/types/order.rs`
lines 113–127 (`SignedOrderRequest`): the order's fields re-rendered as
decimal strings plus the signature blob. -/
structure SignedOrderRequest where
  salt : ℕ
  maker : String
  signer : String
  taker : String
  token_id : String
  maker_amount : String
  taker_amount : String
  expiration : String
  nonce : String
  fee_rate_bps : String
  side : String
  signature_type : ℕ
  signature : String

/-- Hexadecimal digit test used by the address model. -/
def isHexChar (c : Char) : Bool :=
  c.isDigit || ('a' ≤ c && c ≤ 'f') || ('A' ≤ c && c ≤ 'F')

/-- Validity of the 40 hex digits of an address body. -/
def isAddressBody (cs : List Char) : Bool :=
  cs.length = 40 && cs.all isHexChar

/-- `Address::from_str` of the external `alloy_primitives` crate, modelled
shallowly: a string parses as an address when, after an optional `0x`
prefix, it consists of exactly 40 hexadecimal digits.  Parsed addresses
are carried as strings and the EIP-55 checksum re-rendering
(`to_checksum(None)`) is modelled as the identity on them. -/
def address_from_str (s : String) : Option String :=
  match s.toList with
  | '0' :: 'x' :: rest => if isAddressBody rest then some s else none
  | cs => if isAddressBody cs then some s else none

/-- `U256::from_str_radix(_, 10)` of the external `alloy_primitives`
crate, modelled shallowly: a nonempty all-digit string below `2 ^ 256`. -/
def u256_from_dec_str (s : String) : Option ℕ :=
  if s.toList ≠ [] ∧ s.toList.all Char.isDigit then
    let n := s.toList.foldl (fun acc c => 10 * acc + (c.toNat - 48)) 0
    if n < 2 ^ 256 then some n else none
  else none

/-- Modelled from the spec: the signer capability of spec section 4.5 (the
signing module is not under `src/`): an address plus a typed-structured-
data signing function over the canonical order, bound to chain id and
exchange address; key custody is pluggable behind it. -/
structure EthSigner where
  address : String
  sign : Order → ℕ → String → Except Error String

/-- Modelled from the spec: `sign_order_message` of the signing module
(spec section 4.5), absent from `src/`: invoke the signer capability on
the canonical order bound to `(chain_id, exchange)`; signing failures
propagate verbatim and are never retried. -/
def sign_order_message (signer : EthSigner) (order : Order) (chain_id : ℕ)
    (exchange : String) : Except Error String :=
  signer.sign order chain_id exchange

/-- Exchange contract configuration, from the `(chainId, negRisk)`
registry of spec sections 4.4 and 6. -/
structure ContractConfig where
  exchange : String

/-- Modelled from the spec: `get_contract_config` lives in
`src/config.rs`, absent from `src/`.  Spec sections 4.4 and 6: a static
`(chainId, negRisk) → exchangeAddress` registry — here the venue's Polygon
deployment, with the neg-risk market variant settled through a distinct
exchange contract — failing with `Config` when no entry exists. -/
def get_contract_config (chain_id : ℕ) (neg_risk : Bool) :
    Except Error ContractConfig :=
  if chain_id = 137 then
    if neg_risk then .ok ⟨"0xC5d563A36AE78145C45a50134d48A1215220f80a"⟩
    else .ok ⟨"0x4bFb41d5B3570DeFd03C39a9A4D8dE6Bd8B8982E"⟩
  else
    .error (.Config ("No contract config for chain id " ++ toString chain_id))

/-- Builder for creating and signing orders, from `src/orders/builder.rs`
(`OrderBuilder`): a signer capability, a signature-type tag and a funder
address. -/
structure OrderBuilder where
  signer : EthSigner
  sig_type : SignatureType
  funder : String

/-- Build and sign an order, from `OrderBuilder::build_signed_order` in
`src/orders/builder.rs` (lines 234–284).  The per-call seed drawn there by
`generate_seed` (current time times a random fraction, an effect) enters
the embedding as the explicit `seed` argument. -/
def build_signed_order (b : OrderBuilder) (seed : ℕ) (token_id : String)
    (side : Side) (chain_id : ℕ) (exchange : String)
    (maker_amount taker_amount : ℕ) (expiration : ℕ)
    (extras : ExtraOrderArgs) : Except Error SignedOrderRequest :=
  match address_from_str extras.taker with
  | none =>
      .error (.InvalidParameter ("Invalid taker address: " ++ extras.taker))
  | some taker_address =>
      match u256_from_dec_str token_id with
      | none =>
          .error (.InvalidParameter ("Invalid token_id: " ++ token_id))
      | some u256_token_id =>
          let order : Order :=
            { salt := seed
              maker := b.funder
              signer := b.signer.address
              taker := taker_address
              tokenId := u256_token_id
              makerAmount := maker_amount
              takerAmount := taker_amount
              expiration := expiration
              nonce := extras.nonce
              feeRateBps := extras.fee_rate_bps
              side := side.to_u8
              signatureType := b.sig_type.to_u8 }
          match sign_order_message b.signer order chain_id exchange with
          | .error e => .error e
          | .ok signature =>
              .ok { salt := seed
                    maker := b.funder
                    signer := b.signer.address
                    taker := taker_address
                    token_id := token_id
                    maker_amount := toString maker_amount
                    taker_amount := toString taker_amount
                    expiration := toString expiration
                    nonce := toString extras.nonce
                    fee_rate_bps := toString extras.fee_rate_bps
                    side := side.as_str
                    signature_type := b.sig_type.to_u8
                    signature := signature }

/-- Create a market order, from `OrderBuilder::create_market_order` in
`src/orders/builder.rs` (lines 145–183): require tick size and neg-risk
flag, look up the rounding configuration, scale the amounts along the
market-order path, resolve the exchange contract and build the signed
order with expiration fixed at 0. -/
def create_market_order (b : OrderBuilder) (chain_id : ℕ)
    (order_args : MarketOrderArgs) (price : ℚ) (extras : ExtraOrderArgs)
    (options : CreateOrderOptions) (seed : ℕ) :
    Except Error SignedOrderRequest :=
  match options.tick_size with
  | none => .error (.MissingField "tick_size")
  | some tick_size =>
      match options.neg_risk with
      | none => .error (.MissingField "neg_risk")
      | some neg_risk =>
          match ROUNDING_CONFIG tick_size with
          | none =>
              .error (.InvalidParameter
                ("Invalid tick_size: " ++ toString tick_size))
          | some round_config =>
              let amounts := get_market_order_amounts order_args.side
                order_args.amount price round_config
              match get_contract_config chain_id neg_risk with
              | .error e => .error e
              | .ok contract_config =>
                  match address_from_str contract_config.exchange with
                  | none =>
                      .error (.Config ("Invalid exchange address: " ++
                        contract_config.exchange))
                  | some exchange_address =>
                      build_signed_order b seed order_args.token_id
                        order_args.side chain_id exchange_address
                        amounts.1 amounts.2 0 extras

/-- Create a limit order, from `OrderBuilder::create_order` in
`src/orders/builder.rs` (lines 188–230): the same pipeline as the market
path but scaling along the limit-order path and with a caller-supplied
expiration. -/
def create_order (b : OrderBuilder) (chain_id : ℕ) (order_args : OrderArgs)
    (expiration : ℕ) (extras : ExtraOrderArgs)
    (options : CreateOrderOptions) (seed : ℕ) :
    Except Error SignedOrderRequest :=
  match options.tick_size with
  | none => .error (.MissingField "tick_size")
  | some tick_size =>
      match options.neg_risk with
      | none => .error (.MissingField "neg_risk")
      | some neg_risk =>
          match ROUNDING_CONFIG tick_size with
          | none =>
              .error (.InvalidParameter
                ("Invalid tick_size: " ++ toString tick_size))
          | some round_config =>
              let amounts := get_order_amounts order_args.side
                order_args.size order_args.price round_config
              match get_contract_config chain_id neg_risk with
              | .error e => .error e
              | .ok contract_config =>
                  match address_from_str contract_config.exchange with
                  | none =>
                      .error (.Config ("Invalid exchange address: " ++
                        contract_config.exchange))
                  | some exchange_address =>
                      build_signed_order b seed order_args.token_id
                        order_args.side chain_id exchange_address
                        amounts.1 amounts.2 expiration extras

/-- Concrete signer fixture: a fixed address and a signing function that
always succeeds with a fixed signature blob. -/
def test_signer : EthSigner :=
  ⟨"0x0000000000000000000000000000000000000001",
   fun _ _ _ => .ok "0xtestsignature"⟩

/-- Concrete builder fixture over `test_signer`, EOA signature type, the
signer's own address as funder. -/
def test_builder : OrderBuilder :=
  ⟨test_signer, .Eoa, "0x0000000000000000000000000000000000000001"⟩

/-- Concrete extra arguments fixture: zero fee, zero nonce, zero-address
(open) taker. -/
def test_extras : ExtraOrderArgs :=
  ⟨0, 0, "0x0000000000000000000000000000000000000000"⟩

/-- Concrete options fixture: tick size 0.01, neg-risk false. -/
def test_options : CreateOrderOptions := ⟨some (1/100), some false⟩

/-- Concrete market-order arguments fixture: buy 100 of token 123. -/
def test_market_args : MarketOrderArgs := ⟨"123", 100, .Buy⟩

/-- Concrete limit-order arguments fixture: buy 100 of token 123 at
price 0.5. -/
def test_order_args : OrderArgs := ⟨"123", 1/2, 100, .Buy⟩

/-- The signed request produced by `create_market_order` on the concrete
fixtures with seed 42. -/
def test_market_request : SignedOrderRequest :=
  { salt := 42
    maker := "0x0000000000000000000000000000000000000001"
    signer := "0x0000000000000000000000000000000000000001"
    taker := "0x0000000000000000000000000000000000000000"
    token_id := "123"
    maker_amount := "50000000"
    taker_amount := "100000000"
    expiration := "0"
    nonce := "0"
    fee_rate_bps := "0"
    side := "BUY"
    signature_type := 0
    signature := "0xtestsignature" }

/-- The signed request produced by `create_order` on the concrete fixtures
with expiration 99 and seed 43. -/
def test_limit_request : SignedOrderRequest :=
  { salt := 43
    maker := "0x0000000000000000000000000000000000000001"
    signer := "0x0000000000000000000000000000000000000001"
    taker := "0x0000000000000000000000000000000000000000"
    token_id := "123"
    maker_amount := "50000000"
    taker_amount := "100000000"
    expiration := "99"
    nonce := "0"
    fee_rate_bps := "0"
    side := "BUY"
    signature_type := 0
    signature := "0xtestsignature" }

end Polymarket

namespace Polymarket

theorem walk_positions_exhausted (s : ℚ) :
    ∀ (ls : List PriceLevel) (rem cost : ℚ),
      (∀ l ∈ ls, 0 ≤ l.size) → (ls.map PriceLevel.size).sum < rem →
      walk_positions s ls rem cost =
        .error (.InvalidOrder
          ("Not enough liquidity to create market order with amount " ++
            toString s)) := by
  intro ls
  induction ls with
  | nil => intro rem cost _ _; rfl
  | cons p rest ih =>
      intro rem cost hnn hsum
      simp only [List.map_cons, List.sum_cons] at hsum
      have hrest_nn : 0 ≤ (rest.map PriceLevel.size).sum := by
        apply List.sum_nonneg
        intro x hx
        obtain ⟨l, hl, rfl⟩ := List.mem_map.mp hx
        exact hnn l (List.mem_cons_of_mem _ hl)
      have hlt : p.size < rem := by
        have := hsum
        nlinarith
      have hmin : min rem p.size = p.size := min_eq_right hlt.le
      have hne : rem - min rem p.size ≠ 0 := by
        rw [hmin]
        have : (rest.map PriceLevel.size).sum < rem - p.size := by linarith
        intro h0
        rw [h0] at this
        exact absurd this (not_lt.mpr hrest_nn)
      simp only [walk_positions, if_neg hne]
      exact ih (rem - min rem p.size) (cost + min rem p.size * p.price)
        (fun l hl => hnn l (List.mem_cons_of_mem _ hl))
        (by rw [hmin]; linarith)

/-- Claim C1: for every rounding configuration, side, decimal price and
decimal size, `get_order_amounts` first rounds the price at
`price_decimals` with midpoint-toward-zero; for a BUY the taker amount is
the size truncated toward zero at `size_decimals` and the maker amount is
the taker amount times the rounded price passed through the correction
step; for a SELL the maker amount is the truncated size and the taker
amount is the maker amount times the rounded price corrected identically
(both then encoded as integer token amounts). -/
theorem C1_order_amount_scaling (rc : RoundConfig) (side : Side)
    (price size : ℚ) :
    get_order_amounts side size price rc =
      match side with
      | .Buy =>
          (decimal_to_token_u32
            (fix_amount_rounding
              (round_dp_ToZero rc.size size *
                round_dp_MidpointTowardZero rc.price price) rc),
           decimal_to_token_u32 (round_dp_ToZero rc.size size))
      | .Sell =>
          (decimal_to_token_u32 (round_dp_ToZero rc.size size),
           decimal_to_token_u32
            (fix_amount_rounding
              (round_dp_ToZero rc.size size *
                round_dp_MidpointTowardZero rc.price price) rc)) := by
  cases side <;> rfl

theorem market_amounts_eq_order_amounts (side : Side) (amount price : ℚ)
    (rc : RoundConfig) :
    get_market_order_amounts side amount price rc =
      get_order_amounts side amount price rc := by
  cases side <;> rfl

/-- Claim C8: the limit-order scaling function `get_order_amounts` and the
market-order scaling function `get_market_order_amounts` are extensionally
equal: for every side, decimal size/amount, decimal price and rounding
configuration they return the same (makerAmount, takerAmount) pair. -/
theorem C8_scaling_paths_agree (side : Side) (amount price : ℚ)
    (rc : RoundConfig) :
    get_market_order_amounts side amount price rc =
      get_order_amounts side amount price rc :=
  market_amounts_eq_order_amounts side amount price rc

/-- Claim C2: `calculate_market_price` walks the side opposite the order's
own side — for a BUY a stably ascending-by-price copy of the levels, for a
SELL a descending one (each a permutation of the snapshot, sorted
accordingly) — greedily consuming levels with fill = min(remaining,
level.size) and returning total cost divided by sharesToMatch the moment
remaining reaches zero; on levels [{0.50,10},{0.55,20}] a BUY of 25 shares
returns exactly 0.53 and a SELL of 25 shares exactly 0.54. -/
theorem C2_market_price_walk :
    (∀ positions s, calculate_market_price positions s Side.Buy =
        walk_positions s (sort_by_price_ascending positions) s 0) ∧
    (∀ positions s, calculate_market_price positions s Side.Sell =
        walk_positions s (sort_by_price_descending positions) s 0) ∧
    (∀ positions, (sort_by_price_ascending positions).Perm positions) ∧
    (∀ positions, (sort_by_price_ascending positions).Pairwise
        fun a b => a.price ≤ b.price) ∧
    (∀ positions, (sort_by_price_descending positions).Perm positions) ∧
    (∀ positions, (sort_by_price_descending positions).Pairwise
        fun a b => b.price ≤ a.price) ∧
    (∀ s p rest rem cost, walk_positions s (p :: rest) rem cost =
        if rem - min rem p.size = 0 then
          .ok ((cost + min rem p.size * p.price) / s)
        else walk_positions s rest (rem - min rem p.size)
          (cost + min rem p.size * p.price)) ∧
    calculate_market_price [⟨1/2, 10⟩, ⟨11/20, 20⟩] 25 Side.Buy =
      .ok (53/100) ∧
    calculate_market_price [⟨1/2, 10⟩, ⟨11/20, 20⟩] 25 Side.Sell =
      .ok (27/50) := by
  refine ⟨fun _ _ => rfl, fun _ _ => rfl, ?_, ?_, ?_, ?_, fun _ _ _ _ _ => rfl,
    ?_, ?_⟩
  · exact fun positions => List.perm_insertionSort _ positions
  · intro positions
    haveI : IsTotal PriceLevel fun a b => a.price ≤ b.price :=
      ⟨fun a b => le_total a.price b.price⟩
    haveI : IsTrans PriceLevel fun a b => a.price ≤ b.price :=
      ⟨fun _ _ _ hab hbc => le_trans hab hbc⟩
    exact List.sorted_insertionSort _ positions
  · exact fun positions => List.perm_insertionSort _ positions
  · intro positions
    haveI : IsTotal PriceLevel fun a b => b.price ≤ a.price :=
      ⟨fun a b => le_total b.price a.price⟩
    haveI : IsTrans PriceLevel fun a b => b.price ≤ a.price :=
      ⟨fun _ _ _ hab hbc => le_trans hbc hab⟩
    exact List.sorted_insertionSort _ positions
  · norm_num [calculate_market_price, sort_by_price_ascending,
      List.insertionSort, List.orderedInsert, walk_positions, min_def]
  · norm_num [calculate_market_price, sort_by_price_descending,
      List.insertionSort, List.orderedInsert, walk_positions, min_def]

/-- Claim C3: whenever an order-book snapshot (with its sizes read as the
non-negative quantities a book carries) is exhausted while the requested
share count is not yet covered — that is, the snapshot's total size is
less than the request — `calculate_market_price` fails with the
insufficient-liquidity error carrying the requested share count, and never
returns a price computed from a partial fill. -/
theorem C3_insufficient_liquidity (positions : List PriceLevel) (s : ℚ)
    (side : Side) (hnn : ∀ l ∈ positions, 0 ≤ l.size)
    (hsum : (positions.map PriceLevel.size).sum < s) :
    calculate_market_price positions s side =
      .error (.InvalidOrder
        ("Not enough liquidity to create market order with amount " ++
          toString s)) := by
  cases side with
  | Buy =>
      have hperm : (sort_by_price_ascending positions).Perm positions :=
        List.perm_insertionSort _ positions
      refine walk_positions_exhausted s _ s 0
        (fun l hl => hnn l (hperm.mem_iff.mp hl)) ?_
      calc ((sort_by_price_ascending positions).map PriceLevel.size).sum
          = (positions.map PriceLevel.size).sum :=
            (hperm.map PriceLevel.size).sum_eq
        _ < s := hsum
  | Sell =>
      have hperm : (sort_by_price_descending positions).Perm positions :=
        List.perm_insertionSort _ positions
      refine walk_positions_exhausted s _ s 0
        (fun l hl => hnn l (hperm.mem_iff.mp hl)) ?_
      calc ((sort_by_price_descending positions).map PriceLevel.size).sum
          = (positions.map PriceLevel.size).sum :=
            (hperm.map PriceLevel.size).sum_eq
        _ < s := hsum

/-- Witness for claim C3 at the spec's own example: levels [{0.50,10}]
cannot cover a request of 20 shares and the walker fails with the
insufficient-liquidity error carrying 20. -/
theorem C3_insufficient_liquidity_witness :
    (∀ l ∈ [PriceLevel.mk (1/2) 10], 0 ≤ l.size) ∧
    (([PriceLevel.mk (1/2) 10].map PriceLevel.size).sum < 20) ∧
    calculate_market_price [PriceLevel.mk (1/2) 10] 20 Side.Buy =
      .error (.InvalidOrder
        ("Not enough liquidity to create market order with amount " ++
          toString (20 : ℚ))) := by
  have h1 : ∀ l ∈ [PriceLevel.mk (1/2) 10], 0 ≤ l.size := by
    intro l hl
    simp only [List.mem_singleton] at hl
    rw [hl]
    norm_num
  have h2 : (([PriceLevel.mk (1/2) 10].map PriceLevel.size).sum < (20 : ℚ)) := by
    norm_num
  exact ⟨h1, h2, C3_insufficient_liquidity _ _ _ h1 h2⟩

/-- Claim C10: on the empty order-book snapshot, `calculate_market_price`
returns the insufficient-liquidity error for every requested share count —
including a request of zero shares — and never returns Ok. -/
theorem C10_empty_book_always_fails (s : ℚ) (side : Side) :
    calculate_market_price [] s side =
      .error (.InvalidOrder
        ("Not enough liquidity to create market order with amount " ++
          toString s)) := by
  cases side <;> rfl

theorem build_signed_order_ok_fields (b : OrderBuilder) (seed : ℕ)
    (token_id : String) (side : Side) (chain_id : ℕ) (exchange : String)
    (maker_amount taker_amount expiration : ℕ) (extras : ExtraOrderArgs)
    (req : SignedOrderRequest)
    (h : build_signed_order b seed token_id side chain_id exchange
      maker_amount taker_amount expiration extras = .ok req) :
    req.maker_amount = toString maker_amount ∧
    req.taker_amount = toString taker_amount ∧
    req.expiration = toString expiration := by
  simp only [build_signed_order] at h
  split at h
  · exact absurd h (by simp)
  · split at h
    · exact absurd h (by simp)
    · split at h
      · exact absurd h (by simp)
      · simp only [Except.ok.injEq] at h
        subst h
        exact ⟨rfl, rfl, rfl⟩

theorem get_order_amounts_lt (side : Side) (size price : ℚ)
    (rc : RoundConfig) :
    (get_order_amounts side size price rc).1 < 2 ^ 32 ∧
    (get_order_amounts side size price rc).2 < 2 ^ 32 := by
  cases side <;>
    exact ⟨Nat.mod_lt _ (by norm_num), Nat.mod_lt _ (by norm_num)⟩

theorem test_lookup : ROUNDING_CONFIG (1/100) = some ⟨2, 2, 4⟩ := by
  norm_num [ROUNDING_CONFIG]

theorem test_amounts :
    get_market_order_amounts Side.Buy 100 (1/2) ⟨2, 2, 4⟩ =
      (50000000, 100000000) := by
  norm_num [get_market_order_amounts, round_dp_ToZero,
    round_dp_MidpointTowardZero, truncTowardZero, roundHalfTowardZero,
    fix_amount_rounding, decimal_to_token_u32, token_units] <;> decide

theorem test_run_market :
    create_market_order test_builder 137 test_market_args (1/2) test_extras
      test_options 42 = .ok test_market_request := by
  have h1 := test_lookup
  have h2 := test_amounts
  simp only [create_market_order, test_options, test_market_args, h1, h2,
    get_contract_config, test_builder, test_extras, test_signer,
    build_signed_order, sign_order_message]
  norm_num [address_from_str, u256_from_dec_str, isAddressBody, isHexChar,
    test_market_request]
  rfl

theorem test_amounts_limit :
    get_order_amounts Side.Buy 100 (1/2) ⟨2, 2, 4⟩ =
      (50000000, 100000000) := by
  norm_num [get_order_amounts, round_dp_ToZero,
    round_dp_MidpointTowardZero, truncTowardZero, roundHalfTowardZero,
    fix_amount_rounding, decimal_to_token_u32, token_units] <;> decide

theorem test_run_limit :
    create_order test_builder 137 test_order_args 99 test_extras
      test_options 43 = .ok test_limit_request := by
  have h1 := test_lookup
  have h2 := test_amounts_limit
  simp only [create_order, test_options, test_order_args, h1, h2,
    get_contract_config, test_builder, test_extras, test_signer,
    build_signed_order, sign_order_message]
  norm_num [address_from_str, u256_from_dec_str, isAddressBody, isHexChar,
    test_limit_request]
  rfl

/-- Claim C4 (amended): the amount-scaling path — tick-size lookup plus
`get_order_amounts` — fails with `InvalidParameter` exactly when the
supplied tick size is outside the supported set; for every supported tick
size it returns the integer amount pair for all inputs, so integer
overflow is never surfaced as an `InvalidParameter` error. -/
theorem C4_scaler_error_conditions (tick : ℚ) (side : Side)
    (size price : ℚ) :
    ((scaled_order_amounts tick side size price).isOk = true ↔
      (ROUNDING_CONFIG tick).isSome = true) ∧
    (ROUNDING_CONFIG tick = none →
      scaled_order_amounts tick side size price =
        .error (.InvalidParameter ("Invalid tick_size: " ++ toString tick))) ∧
    (∀ rc, ROUNDING_CONFIG tick = some rc →
      scaled_order_amounts tick side size price =
        .ok (get_order_amounts side size price rc)) := by
  cases hrc : ROUNDING_CONFIG tick with
  | none =>
      refine ⟨?_, fun _ => ?_, fun rc hrc2 => ?_⟩
      · simp [scaled_order_amounts, hrc, Except.isOk, Except.toBool]
      · simp [scaled_order_amounts, hrc]
      · exact absurd hrc2 (by simp)
  | some rc0 =>
      refine ⟨?_, fun hnone => ?_, fun rc hrc2 => ?_⟩
      · simp [scaled_order_amounts, hrc, Except.isOk, Except.toBool]
      · exact absurd hnone (by simp)
      · simp only [Option.some.injEq] at hrc2
        subst hrc2
        simp [scaled_order_amounts, hrc]

/-- Witness for claim C4: at the supported tick 0.01 the scaler returns
the amount pair, and at the unsupported tick 1/3 it fails with
`InvalidParameter`. -/
theorem C4_scaler_error_conditions_witness :
    (ROUNDING_CONFIG (1/100) = some ⟨2, 2, 4⟩ ∧
      scaled_order_amounts (1/100) Side.Sell 5 (1/2) =
        .ok (get_order_amounts Side.Sell 5 (1/2) ⟨2, 2, 4⟩)) ∧
    (ROUNDING_CONFIG (1/3) = none ∧
      scaled_order_amounts (1/3) Side.Buy 5 (1/2) =
        .error (.InvalidParameter
          ("Invalid tick_size: " ++ toString ((1:ℚ)/3)))) := by
  have hn : ROUNDING_CONFIG (1/3) = none := by norm_num [ROUNDING_CONFIG]
  refine ⟨⟨test_lookup, ?_⟩, ⟨hn, ?_⟩⟩
  · exact (C4_scaler_error_conditions (1/100) Side.Sell 5 (1/2)).2.2
      ⟨2, 2, 4⟩ test_lookup
  · exact (C4_scaler_error_conditions (1/3) Side.Buy 5 (1/2)).2.1 hn

/-- Counterexample to claim C4 as stated: buying 10^9 at price 0.5 under
tick 0.01 yields a maker amount of 5·10^14 token units — far above the
32-bit width — yet the scaler succeeds instead of failing with
`InvalidParameter`: overflow is not detected. -/
theorem C4_scaler_overflow_counterexample :
    (scaled_order_amounts (1/100) Side.Buy ((10:ℚ)^9) (1/2)).isOk = true ∧
    2 ^ 32 ≤ token_units (fix_amount_rounding
      (round_dp_ToZero 2 ((10:ℚ)^9) *
        round_dp_MidpointTowardZero 2 (1/2)) ⟨2, 2, 4⟩) := by
  constructor
  · norm_num [scaled_order_amounts, ROUNDING_CONFIG, Except.isOk,
      Except.toBool]
  · norm_num [token_units, truncTowardZero, fix_amount_rounding,
      round_dp_ToZero, round_dp_MidpointTowardZero, roundHalfTowardZero]

/-- Claim C5: for every combination of otherwise valid arguments,
`create_order` and `create_market_order` fail with a `MissingField` error
whenever the options omit the tick size or omit the neg-risk flag, and in
that case no order is built or signed (the error is returned for every
possible signer, before any signing occurs). -/
theorem C5_missing_field_rejection (b : OrderBuilder) (chain_id : ℕ)
    (oargs : OrderArgs) (margs : MarketOrderArgs) (expiration : ℕ)
    (price : ℚ) (extras : ExtraOrderArgs) (options : CreateOrderOptions)
    (seed : ℕ) :
    (options.tick_size = none →
      create_order b chain_id oargs expiration extras options seed =
        .error (.MissingField "tick_size") ∧
      create_market_order b chain_id margs price extras options seed =
        .error (.MissingField "tick_size")) ∧
    (options.tick_size ≠ none → options.neg_risk = none →
      create_order b chain_id oargs expiration extras options seed =
        .error (.MissingField "neg_risk") ∧
      create_market_order b chain_id margs price extras options seed =
        .error (.MissingField "neg_risk")) := by
  obtain ⟨ts, nr⟩ := options
  constructor
  · intro hts
    simp only at hts
    subst hts
    exact ⟨rfl, rfl⟩
  · intro hts hnr
    simp only at hts hnr
    subst hnr
    cases ts with
    | none => exact absurd rfl hts
    | some t => exact ⟨rfl, rfl⟩

/-- Witness for claim C5: with otherwise valid concrete arguments, omitted
tick size and omitted neg-risk flag each produce the corresponding
`MissingField` error on both entry points. -/
theorem C5_missing_field_rejection_witness :
    ((⟨none, some false⟩ : CreateOrderOptions).tick_size = none ∧
      create_order test_builder 137 test_order_args 0 test_extras
        ⟨none, some false⟩ 7 = .error (.MissingField "tick_size") ∧
      create_market_order test_builder 137 test_market_args (1/2)
        test_extras ⟨none, some false⟩ 7 =
          .error (.MissingField "tick_size")) ∧
    ((⟨some (1/100), none⟩ : CreateOrderOptions).neg_risk = none ∧
      create_order test_builder 137 test_order_args 0 test_extras
        ⟨some (1/100), none⟩ 7 = .error (.MissingField "neg_risk") ∧
      create_market_order test_builder 137 test_market_args (1/2)
        test_extras ⟨some (1/100), none⟩ 7 =
          .error (.MissingField "neg_risk")) := by
  refine ⟨⟨rfl, ?_⟩, ⟨rfl, ?_⟩⟩
  · exact (C5_missing_field_rejection test_builder 137 test_order_args
      test_market_args 0 (1/2) test_extras ⟨none, some false⟩ 7).1 rfl
  · exact (C5_missing_field_rejection test_builder 137 test_order_args
      test_market_args 0 (1/2) test_extras ⟨some (1/100), none⟩ 7).2
      (by simp) rfl

/-- Claim C6: for every input on which `create_market_order` succeeds, the
returned signed order request has its expiration field equal to "0". -/
theorem C6_market_order_expiration_zero (b : OrderBuilder) (chain_id : ℕ)
    (order_args : MarketOrderArgs) (price : ℚ) (extras : ExtraOrderArgs)
    (options : CreateOrderOptions) (seed : ℕ) (req : SignedOrderRequest)
    (h : create_market_order b chain_id order_args price extras options
      seed = .ok req) :
    req.expiration = "0" := by
  simp only [create_market_order] at h
  split at h
  · exact absurd h (by simp)
  · split at h
    · exact absurd h (by simp)
    · split at h
      · exact absurd h (by simp)
      · split at h
        · exact absurd h (by simp)
        · split at h
          · exact absurd h (by simp)
          · exact
              (build_signed_order_ok_fields _ _ _ _ _ _ _ _ _ _ _ h).2.2

/-- Witness for claim C6: a concrete successful `create_market_order` run
whose result carries expiration "0". -/
theorem C6_market_order_expiration_zero_witness :
    create_market_order test_builder 137 test_market_args (1/2) test_extras
      test_options 42 = .ok test_market_request ∧
    test_market_request.expiration = "0" :=
  ⟨test_run_market,
   C6_market_order_expiration_zero _ _ _ _ _ _ _ _ test_run_market⟩

/-- Claim C9: every signed order request produced by `create_order` or
`create_market_order` carries maker and taker amount string fields that
are decimal renderings of unsigned 32-bit integers — non-negative values
strictly below 2^32. -/
theorem C9_amounts_are_u32_strings (b : OrderBuilder) (chain_id : ℕ)
    (oargs : OrderArgs) (margs : MarketOrderArgs) (expiration : ℕ)
    (price : ℚ) (extras : ExtraOrderArgs) (options : CreateOrderOptions)
    (seed : ℕ) (req : SignedOrderRequest)
    (h : create_order b chain_id oargs expiration extras options seed =
          .ok req ∨
        create_market_order b chain_id margs price extras options seed =
          .ok req) :
    ∃ m t : ℕ, m < 2 ^ 32 ∧ t < 2 ^ 32 ∧
      req.maker_amount = toString m ∧ req.taker_amount = toString t := by
  cases h with
  | inl h =>
      simp only [create_order] at h
      split at h
      · exact absurd h (by simp)
      · split at h
        · exact absurd h (by simp)
        · split at h
          · exact absurd h (by simp)
          · split at h
            · exact absurd h (by simp)
            · split at h
              · exact absurd h (by simp)
              · obtain ⟨hm, ht, -⟩ :=
                  build_signed_order_ok_fields _ _ _ _ _ _ _ _ _ _ _ h
                exact ⟨_, _, (get_order_amounts_lt _ _ _ _).1,
                  (get_order_amounts_lt _ _ _ _).2, hm, ht⟩
  | inr h =>
      simp only [create_market_order] at h
      split at h
      · exact absurd h (by simp)
      · split at h
        · exact absurd h (by simp)
        · split at h
          · exact absurd h (by simp)
          · split at h
            · exact absurd h (by simp)
            · split at h
              · exact absurd h (by simp)
              · obtain ⟨hm, ht, -⟩ :=
                  build_signed_order_ok_fields _ _ _ _ _ _ _ _ _ _ _ h
                rw [market_amounts_eq_order_amounts] at hm ht
                exact ⟨_, _, (get_order_amounts_lt _ _ _ _).1,
                  (get_order_amounts_lt _ _ _ _).2, hm, ht⟩

/-- Witness for claim C9: the concrete successful `create_order` run
produces amount strings rendering integers below 2^32. -/
theorem C9_amounts_are_u32_strings_witness :
    ∃ m t : ℕ, m < 2 ^ 32 ∧ t < 2 ^ 32 ∧
      test_limit_request.maker_amount = toString m ∧
      test_limit_request.taker_amount = toString t :=
  C9_amounts_are_u32_strings test_builder 137 test_order_args
    test_market_args 99 (1/2) test_extras test_options 43
    test_limit_request (.inl test_run_limit)

end Polymarket
